import Mathlib

/-!
Shallow embedding of the session lifecycle and media-negotiation state
machine of `client/src/app.ts` (class `WebsocketClientApp`).

The embedding mirrors the TypeScript source line by line:

* `buildConnectUrl` embeds the URL construction on lines 213–233 of
  `connect()`, including the `encodeURIComponent` call for the system
  instruction.
* `AppState` holds the mutable fields of the class that the claims are
  about (`rtviClient`, `audioContext`, `activeTab`, the connection-status
  indicator, the status-text line, the bound remote audio track, and the
  console log), plus a `sessionsCreated` counter that counts evaluations
  of `new RTVIClient(...)`.
* `connect`, `disconnect`, `toggleConnection`, `toggleMicrophone`,
  `onTrackStarted`, `onTrackStopped` embed the corresponding methods.
  External collaborators (device initialisation, the transport open, the
  transport release) are oracles in `ConnectEnv`: a Boolean says whether
  the awaited call succeeds or throws.
* `connect` and `disconnect` also return an event trace (`List Ev`) used
  for the temporal claims: which status values were written, whether a
  client was constructed, whether the session-open call was issued, and
  the order of listener attachment versus session-open completion.
-/

/-- The connection indicator values passed to `updateConnectionStatus`. -/
inductive ConnStatus
  | disconnected
  | connecting
  | connected
deriving DecidableEq, Repr

/-- A media track: its `kind` string, its mutable `enabled` flag, and an
identity used to tell tracks apart. -/
structure Track where
  kind : String
  enabled : Bool
  tid : Nat
deriving DecidableEq, Repr

/-- The optional participant descriptor delivered with track events; only
its `local` flag is consulted. -/
structure Participant where
  plocal : Bool
deriving DecidableEq, Repr

/-- The test `!participant?.local` of the TypeScript handlers: true when the
participant is absent or not local. -/
def participantNonLocal : Option Participant → Bool
  | none => true
  | some p => !p.plocal

/-- The `RTVIClient` object as far as the client observes it: the connect
URL it was configured with and its local audio capture track. -/
structure Session where
  connectUrl : String
  localAudio : Option Track
deriving DecidableEq, Repr

/-- One console log entry: level and message. -/
structure LogEntry where
  level : String
  message : String
deriving DecidableEq, Repr

/-- The mutable state of `WebsocketClientApp` relevant to the claims. -/
structure AppState where
  rtviClient : Option Session
  audioContextOpen : Bool
  activeTab : String
  connectionStatus : ConnStatus
  statusText : String
  connectBtnLabel : String
  micButtonDisabled : Bool
  micButtonActive : Bool
  boundAudioTrack : Option Track
  sessionsCreated : Nat
  logs : List LogEntry
deriving DecidableEq, Repr

/-- Events observable during `connect`/`disconnect`, in program order. -/
inductive Ev
  | statusUpdate (s : ConnStatus)
  | newClient
  | listenersAttached
  | initDevicesCall
  | micMutedDefault
  | sessionOpenStart
  | sessionOpenComplete
  | releaseAttempt
deriving DecidableEq, Repr

/-! Connection URL construction (lines 213–233 of `connect()`). -/

/-- One hexadecimal digit, uppercase, as produced by `encodeURIComponent`. -/
def hexDigit (n : Nat) : Char :=
  if n < 10 then Char.ofNat (48 + n) else Char.ofNat (55 + n)

/-- Percent escape `%XX` of a single byte. -/
def percentEncodeByte (b : Nat) : String :=
  String.mk ['%', hexDigit (b / 16), hexDigit (b % 16)]

/-- UTF-8 bytes of a code point, as used by `encodeURIComponent`. -/
def utf8Bytes (n : Nat) : List Nat :=
  if n < 128 then [n]
  else if n < 2048 then [192 + n / 64, 128 + n % 64]
  else if n < 65536 then [224 + n / 4096, 128 + (n / 64) % 64, 128 + n % 64]
  else [240 + n / 262144, 128 + (n / 4096) % 64, 128 + (n / 64) % 64, 128 + n % 64]

/-- Characters `encodeURIComponent` leaves unescaped:
`A–Z a–z 0–9 - _ . ! ~ * ' ( )`. -/
def isUriUnescaped (c : Char) : Bool :=
  (65 ≤ c.toNat && c.toNat ≤ 90) || (97 ≤ c.toNat && c.toNat ≤ 122) ||
  (48 ≤ c.toNat && c.toNat ≤ 57) ||
  c = '-' || c = '_' || c = '.' || c = '!' || c = '~' || c = '*' ||
  c = Char.ofNat 39 || c = '(' || c = ')'

/-- JavaScript `encodeURIComponent`. -/
def encodeURIComponent (s : String) : String :=
  String.join (s.data.map fun c =>
    if isUriUnescaped c then String.mk [c]
    else String.join ((utf8Bytes c.toNat).map percentEncodeByte))

/-- The connection URL built by `connect()` from the active tab, the API
key and the (possibly empty) system instruction, exactly as the string
concatenation on lines 213–233. -/
def buildConnectUrl (activeTab apiKey systemInstructions : String) : String :=
  let u := "/connect?bot_type=" ++ activeTab ++ "&api_key=" ++ apiKey
  let u :=
    if activeTab = "tts-llm-stt" then
      u ++ "&tts_voice=en-US-Chirp3-HD-Aoede"
        ++ "&tts_pace=1.0"
        ++ "&llm_model=gemini-2.5-flash-lite-preview-06-17"
        ++ "&stt_model=chirp_3"
        ++ "&stt_language=en-IN"
    else
      u ++ "&model=gemini-live-2.5-flash-preview"
        ++ "&voice=Custom-Female"
        ++ "&language=hi-IN"
        ++ "&tts=true"
        ++ "&tts_pace=1.0"
  if systemInstructions ≠ "" then
    u ++ "&system_instruction=" ++ encodeURIComponent systemInstructions
  else u

/-! Session manager operations. -/

/-- Outcomes of the awaited external calls inside one `connect()` attempt:
whether `initDevices()` succeeds, which local audio track the devices
expose afterwards, whether `rtviClient.connect()` succeeds, whether the
best-effort `rtviClient.disconnect()` in the catch block succeeds, and
the message of a thrown error. -/
structure ConnectEnv where
  initDevicesOk : Bool
  localAudioAfterInit : Option Track
  connectOk : Bool
  catchReleaseOk : Bool
  errMsg : String
deriving DecidableEq, Repr

/-- The `onDisconnected` callback registered in `RTVIConfig.callbacks`
(lines 256–267). -/
def onDisconnectedCb (st : AppState) : AppState :=
  { st with
      connectionStatus := .disconnected
      statusText := "Disconnected"
      connectBtnLabel := "Connect"
      micButtonDisabled := true
      micButtonActive := false
      logs := st.logs ++ [⟨"info", "Client disconnected"⟩] }

/-- The `onConnected` callback registered in `RTVIConfig.callbacks`
(lines 246–255). -/
def onConnectedCb (st : AppState) : AppState :=
  { st with
      connectionStatus := .connected
      statusText := "Connected! Click microphone to start"
      connectBtnLabel := "Disconnect"
      micButtonDisabled := false }

/-- The `catch` block of `connect()` (lines 298–309): log the error,
show `disconnected`/`Connection failed`, and if a client object exists,
best-effort `await this.rtviClient.disconnect()` whose own failure is
logged and swallowed. The client handle is not cleared and the audio
context is not closed here. -/
def connectCatch (env : ConnectEnv) (st : AppState) (tr : List Ev) :
    AppState × List Ev :=
  let st1 : AppState :=
    { st with
        logs := st.logs ++ [⟨"error", "Error connecting: " ++ env.errMsg⟩]
        connectionStatus := .disconnected
        statusText := "Connection failed" }
  let tr1 := tr ++ [Ev.statusUpdate .disconnected]
  match st1.rtviClient with
  | some _ =>
      let tr2 := tr1 ++ [Ev.releaseAttempt]
      if env.catchReleaseOk then
        (onDisconnectedCb st1, tr2 ++ [Ev.statusUpdate .disconnected])
      else
        ({ st1 with
            logs := st1.logs ++ [⟨"error", "Error during disconnect"⟩] }, tr2)
  | none => (st1, tr1)

/-- Embeds `connect()` (lines 196–310). `apiKey` is the value of the API-key
input, `systemPrompt` the instruction text loaded at startup. Returns the
final state and the event trace of the call. -/
def connect (env : ConnectEnv) (apiKey systemPrompt : String)
    (st : AppState) : AppState × List Ev :=
  -- this.audioContext = new AudioContext(); this.audioContext.resume();
  let st1 : AppState := { st with audioContextOpen := true }
  -- this.updateConnectionStatus("connecting");
  let st2 : AppState := { st1 with connectionStatus := .connecting }
  let tr2 : List Ev := [Ev.statusUpdate .connecting]
  -- const transport = new WebSocketTransport(); const apiKey = ...;
  if apiKey = "" then
    -- if (!apiKey) { log error; status disconnected; status text; return; }
    ({ st2 with
        logs := st2.logs ++ [⟨"error", "API key is required"⟩]
        connectionStatus := .disconnected
        statusText := "Please enter API key" },
     tr2 ++ [Ev.statusUpdate .disconnected])
  else
    let connectUrl := buildConnectUrl st2.activeTab apiKey systemPrompt
    -- this.rtviClient = new RTVIClient(RTVIConfig);
    let sess : Session := { connectUrl := connectUrl, localAudio := none }
    let st3 : AppState :=
      { st2 with
          rtviClient := some sess
          sessionsCreated := st2.sessionsCreated + 1 }
    -- this.setupTrackListeners();
    let tr4 := tr2 ++ [Ev.newClient, Ev.listenersAttached]
    -- this.log("Initializing devices..."); await this.rtviClient.initDevices();
    let st4 : AppState :=
      { st3 with logs := st3.logs ++ [⟨"info", "Initializing devices..."⟩] }
    let tr5 := tr4 ++ [Ev.initDevicesCall]
    if env.initDevicesOk then
      -- devices ready: tracks().local.audio is env.localAudioAfterInit
      match env.localAudioAfterInit with
      | some t =>
          -- localTracks.audio.enabled = false; log "Microphone muted by default"
          let st5 : AppState :=
            { st4 with
                rtviClient := some { sess with localAudio := some { t with enabled := false } }
                logs := st4.logs ++ [⟨"info", "Microphone muted by default"⟩] }
          connectOpen env st5 (tr5 ++ [Ev.micMutedDefault])
      | none =>
          let st5 : AppState :=
            { st4 with rtviClient := some { sess with localAudio := none } }
          connectOpen env st5 tr5
    else
      connectCatch env st4 tr5
where
  /-- Embeds `this.log("Connecting to bot..."); await this.rtviClient.connect();`
  and, on success, the `onConnected` callback (lines 296–297). -/
  connectOpen (env : ConnectEnv) (st : AppState) (tr : List Ev) :
      AppState × List Ev :=
    let st6 : AppState :=
      { st with logs := st.logs ++ [⟨"info", "Connecting to bot..."⟩] }
    let tr7 := tr ++ [Ev.sessionOpenStart]
    if env.connectOk then
      (onConnectedCb st6,
       tr7 ++ [Ev.statusUpdate .connected, Ev.sessionOpenComplete])
    else
      connectCatch env st6 tr7

/-- Embeds `disconnect()` (lines 312–325). `releaseOk` says whether
`await this.rtviClient.disconnect()` succeeds; on success the transport
fires the `onDisconnected` callback and then the handle is cleared and
the audio context closed; on failure the error is logged and nothing
else happens (the clearing statements sit after the `await` inside the
`try`). -/
def disconnect (releaseOk : Bool) (st : AppState) : AppState × List Ev :=
  match st.rtviClient with
  | none => (st, [])
  | some _ =>
      if releaseOk then
        let st1 := onDisconnectedCb st
        ({ st1 with rtviClient := none, audioContextOpen := false },
         [Ev.releaseAttempt, Ev.statusUpdate .disconnected])
      else
        ({ st with logs := st.logs ++ [⟨"error", "Error disconnecting"⟩] },
         [Ev.releaseAttempt])

/-- Embeds `toggleConnection()` (lines 128–134): route to `disconnect()` when a
client handle exists, otherwise to `connect()`. -/
def toggleConnection (env : ConnectEnv) (releaseOk : Bool)
    (apiKey systemPrompt : String) (st : AppState) : AppState × List Ev :=
  match st.rtviClient with
  | some _ => disconnect releaseOk st
  | none => connect env apiKey systemPrompt st

/-- Embeds `toggleMicrophone()` (lines 136–159). -/
def toggleMicrophone (st : AppState) : AppState :=
  match st.rtviClient with
  | none =>
      { st with logs := st.logs ++ [⟨"warning", "Please connect first"⟩] }
  | some s =>
      match s.localAudio with
      | none => st
      | some t =>
          let isEnabled := t.enabled
          let st1 : AppState :=
            { st with rtviClient := some { s with localAudio := some { t with enabled := !isEnabled } } }
          let st2 : AppState :=
            if !isEnabled then
              { st1 with micButtonActive := true, statusText := "Listening..." }
            else
              { st1 with micButtonActive := false, statusText := "Microphone muted" }
          { st2 with
              logs := st2.logs ++
                [⟨"info", if isEnabled then "Microphone muted" else "Microphone unmuted"⟩] }

/-- Embeds `setupAudioTrack(track)` (lines 186–194): bind the track to the
`bot-audio` element, replacing any previous binding. -/
def setupAudioTrack (track : Track) (st : AppState) : AppState :=
  { st with
      logs := st.logs ++ [⟨"info", "Setting up audio track"⟩]
      boundAudioTrack := some track }

/-- The `TrackStarted` handler installed by `setupTrackListeners()`
(lines 172–177). -/
def onTrackStarted (track : Track) (participant : Option Participant)
    (st : AppState) : AppState :=
  if participantNonLocal participant && track.kind = "audio" then
    { setupAudioTrack track st with statusText := "Bot is speaking..." }
  else st

/-- The `TrackStopped` handler installed by `setupTrackListeners()`
(lines 179–183). -/
def onTrackStopped (track : Track) (participant : Option Participant)
    (st : AppState) : AppState :=
  if participantNonLocal participant && track.kind = "audio" then
    { st with statusText := "Ready" }
  else st

/-- Returns `true` iff some occurrence of `a` comes strictly before the
first occurrence of `b` in the list (vacuously `true` when `b` never
occurs), i.e. every occurrence of `b` is preceded by an `a`. -/
def precedesB (a b : Ev) : List Ev → Bool
  | [] => true
  | x :: xs => if x = b then false else if x = a then true else precedesB a b xs

/-! Concrete states and environments used by counterexamples and
witnesses. -/

/-- The state of a fresh `WebsocketClientApp` with the default tab. -/
def initialState : AppState :=
  { rtviClient := none, audioContextOpen := false, activeTab := "tts-llm-stt",
    connectionStatus := .disconnected, statusText := "", connectBtnLabel := "Connect",
    micButtonDisabled := true, micButtonActive := false, boundAudioTrack := none,
    sessionsCreated := 0, logs := [] }

/-- A local audio capture track as exposed after `initDevices()`. -/
def exTrack : Track := { kind := "audio", enabled := true, tid := 0 }

/-- A remote (bot) audio track. -/
def botTrack : Track := { kind := "audio", enabled := true, tid := 7 }

/-- An environment where every awaited external call succeeds. -/
def envAllOk : ConnectEnv :=
  { initDevicesOk := true, localAudioAfterInit := some exTrack,
    connectOk := true, catchReleaseOk := true, errMsg := "boom" }

/-- An environment where the transport open (`rtviClient.connect()`)
throws. -/
def envOpenFails : ConnectEnv := { envAllOk with connectOk := false }

/-- A session as it exists after a successful connect. -/
def exSession : Session :=
  { connectUrl := buildConnectUrl "tts-llm-stt" "abc123" ""
    localAudio := some { exTrack with enabled := false } }

/-- The app state after a successful connect: a session handle exists and
the status is `connected`. -/
def connectedState : AppState :=
  { initialState with
      rtviClient := some exSession
      audioContextOpen := true
      connectionStatus := .connected
      statusText := "Connected! Click microphone to start"
      sessionsCreated := 1 }

set_option maxRecDepth 10000

/-- C1: if the credential is empty, `connect()` constructs no RTVIClient,
issues no session-open call, logs the error "API key is required", and
ends with the connection status Disconnected. -/
theorem connect_empty_credential_no_session (env : ConnectEnv)
    (prompt : String) (st : AppState) :
    (connect env "" prompt st).1.connectionStatus = ConnStatus.disconnected ∧
    (connect env "" prompt st).1.rtviClient = st.rtviClient ∧
    (connect env "" prompt st).1.sessionsCreated = st.sessionsCreated ∧
    Ev.newClient ∉ (connect env "" prompt st).2 ∧
    Ev.sessionOpenStart ∉ (connect env "" prompt st).2 ∧
    (⟨"error", "API key is required"⟩ : LogEntry) ∈ (connect env "" prompt st).1.logs := by
  simp [connect]

/-- C2 counterexample: with a session handle present and status
Connected, a direct `connect()` call constructs an additional session
object (the claim says no additional session is ever created). -/
theorem connect_reentrant_second_session_cex :
    connectedState.connectionStatus = ConnStatus.connected ∧
    connectedState.rtviClient ≠ none ∧
    (connect envAllOk "abc123" "" connectedState).1.sessionsCreated =
      connectedState.sessionsCreated + 1 ∧
    Ev.newClient ∈ (connect envAllOk "abc123" "" connectedState).2 := by
  refine ⟨rfl, by decide, by decide, by decide⟩

/-- C2 amended: `connect()` itself has no re-entrancy guard (a direct
call with a session present constructs an additional session object);
only a call routed through the public toggle creates no additional
session when a session handle exists, because the toggle routes to
`disconnect()` instead. -/
theorem toggle_with_session_no_new_session (env : ConnectEnv)
    (releaseOk : Bool) (key prompt : String) (st : AppState) (s : Session)
    (h : st.rtviClient = some s) :
    toggleConnection env releaseOk key prompt st = disconnect releaseOk st ∧
    (toggleConnection env releaseOk key prompt st).1.sessionsCreated =
      st.sessionsCreated ∧
    Ev.newClient ∉ (toggleConnection env releaseOk key prompt st).2 := by
  cases releaseOk <;> simp [toggleConnection, disconnect, onDisconnectedCb, h]

/-- Witness instantiating the C2 amended theorem at the connected
example state. -/
theorem toggle_with_session_no_new_session_witness :
    connectedState.rtviClient = some exSession ∧
    (toggleConnection envAllOk true "abc123" "" connectedState =
        disconnect true connectedState ∧
      (toggleConnection envAllOk true "abc123" "" connectedState).1.sessionsCreated =
        connectedState.sessionsCreated ∧
      Ev.newClient ∉ (toggleConnection envAllOk true "abc123" "" connectedState).2) :=
  ⟨by decide,
   toggle_with_session_no_new_session envAllOk true "abc123" "" connectedState exSession (by decide)⟩

/-- C3 counterexample: on an empty credential the status IS observed as
Connecting during the `connect()` call (the claim says it is never
observed as Connecting). -/
theorem connect_empty_credential_connecting_cex :
    Ev.statusUpdate ConnStatus.connecting ∈ (connect envAllOk "" "" initialState).2 ∧
    (connect envAllOk "" "" initialState).2.head? =
      some (Ev.statusUpdate ConnStatus.connecting) := by
  refine ⟨by decide, by decide⟩

/-- C3 amended: the transition to Connecting happens before credential
validation. On an empty credential `connect()` first writes Connecting,
then reverts to Disconnected; the status at the end of the call is
Disconnected. -/
theorem connect_empty_credential_connecting_then_disconnected
    (env : ConnectEnv) (prompt : String) (st : AppState) :
    (connect env "" prompt st).2 =
      [Ev.statusUpdate ConnStatus.connecting,
       Ev.statusUpdate ConnStatus.disconnected] ∧
    (connect env "" prompt st).1.connectionStatus = ConnStatus.disconnected := by
  simp [connect]

/-- C4 counterexample: when the underlying release throws,
`disconnect()` neither clears the session handle nor transitions to
Disconnected (the clearing statements sit after the `await` inside the
`try`), contradicting the claim that both happen regardless of release
failure. -/
theorem disconnect_release_failure_keeps_handle_cex :
    connectedState.rtviClient = some exSession ∧
    (disconnect false connectedState).1.rtviClient = some exSession ∧
    (disconnect false connectedState).1.connectionStatus = ConnStatus.connected := by
  refine ⟨by decide, by decide, by decide⟩

/-- C4 amended: `disconnect()` with an existing session handle clears the
handle, closes the audio context and reaches Disconnected only when the
release succeeds; when the release throws, the failure is only logged
and the state is otherwise unchanged (handle kept, status kept). -/
theorem disconnect_release_outcome (releaseOk : Bool) (st : AppState)
    (s : Session) (h : st.rtviClient = some s) :
    ((disconnect releaseOk st).1.rtviClient =
        if releaseOk then none else some s) ∧
    ((disconnect releaseOk st).1.connectionStatus =
        if releaseOk then ConnStatus.disconnected else st.connectionStatus) ∧
    ((disconnect releaseOk st).1.audioContextOpen =
        if releaseOk then false else st.audioContextOpen) ∧
    (releaseOk = false →
      disconnect false st =
        ({ st with logs := st.logs ++ [⟨"error", "Error disconnecting"⟩] },
         [Ev.releaseAttempt])) := by
  cases releaseOk <;> simp [disconnect, onDisconnectedCb, h]

/-- Witness instantiating the C4 amended theorem at the connected
example state with a successful release. -/
theorem disconnect_release_outcome_witness :
    connectedState.rtviClient = some exSession ∧
    (((disconnect true connectedState).1.rtviClient =
        if true then none else some exSession) ∧
      ((disconnect true connectedState).1.connectionStatus =
        if true then ConnStatus.disconnected else connectedState.connectionStatus) ∧
      ((disconnect true connectedState).1.audioContextOpen =
        if true then false else connectedState.audioContextOpen) ∧
      (true = false →
        disconnect false connectedState =
          ({ connectedState with
              logs := connectedState.logs ++ [⟨"error", "Error disconnecting"⟩] },
           [Ev.releaseAttempt]))) :=
  ⟨by decide, disconnect_release_outcome true connectedState exSession (by decide)⟩

/-- C5: for the Composite variant with credential "abc123" and empty
instruction text, the descriptor's parameter set is exactly, in order,
bot_type, api_key, tts_voice, tts_pace, llm_model, stt_model,
stt_language with the listed values, and contains no system_instruction
parameter; `connect()` configures the constructed client with exactly
this URL. -/
theorem composite_descriptor_params :
    buildConnectUrl "tts-llm-stt" "abc123" "" =
      "/connect?bot_type=tts-llm-stt&api_key=abc123&tts_voice=en-US-Chirp3-HD-Aoede&tts_pace=1.0&llm_model=gemini-2.5-flash-lite-preview-06-17&stt_model=chirp_3&stt_language=en-IN" ∧
    ¬ List.IsInfix "system_instruction".data
        (buildConnectUrl "tts-llm-stt" "abc123" "").data ∧
    (connect envAllOk "abc123" "" initialState).1.rtviClient =
      some { connectUrl := buildConnectUrl "tts-llm-stt" "abc123" ""
             localAudio := some { exTrack with enabled := false } } := by
  refine ⟨by decide, by decide, by decide⟩

/-- C6: for the Direct-live variant (any active tab other than
"tts-llm-stt") with credential "abc123" and instruction text
"Be concise", the descriptor consists of bot_type, api_key and exactly
the parameters model, voice, language, tts, tts_pace and a
system_instruction parameter whose value is the percent-encoded
instruction text. -/
theorem directlive_descriptor_params (tab : String) (h : tab ≠ "tts-llm-stt") :
    buildConnectUrl tab "abc123" "Be concise" =
      "/connect?bot_type=" ++ tab ++
        "&api_key=abc123&model=gemini-live-2.5-flash-preview&voice=Custom-Female&language=hi-IN&tts=true&tts_pace=1.0&system_instruction=Be%20concise" ∧
    encodeURIComponent "Be concise" = "Be%20concise" := by
  constructor
  · simp only [buildConnectUrl, if_neg h]
    simp only [String.append_assoc]
    norm_num
    rw [if_neg (by decide : ¬ ("Be concise" = ""))]
    exact congrArg (fun z => "/connect?bot_type=" ++ (tab ++ z)) (by decide)
  · decide

/-- Witness instantiating the C6 theorem at the tab "gemini-live". -/
theorem directlive_descriptor_params_witness :
    "gemini-live" ≠ "tts-llm-stt" ∧
    (buildConnectUrl "gemini-live" "abc123" "Be concise" =
        "/connect?bot_type=" ++ "gemini-live" ++
          "&api_key=abc123&model=gemini-live-2.5-flash-preview&voice=Custom-Female&language=hi-IN&tts=true&tts_pace=1.0&system_instruction=Be%20concise" ∧
      encodeURIComponent "Be concise" = "Be%20concise") :=
  ⟨by decide, directlive_descriptor_params "gemini-live" (by decide)⟩

/-- C7: in every `connect()` call the track-lifecycle listeners are
attached strictly before the session-open call starts and hence strictly
before it completes: in the event trace, every occurrence of
`sessionOpenStart` (and of `sessionOpenComplete`) is preceded by
`listenersAttached`. -/
theorem connectTrace_listeners_before_start (env : ConnectEnv)
    (key prompt : String) (st : AppState) :
    precedesB Ev.listenersAttached Ev.sessionOpenStart
        (connect env key prompt st).2 = true := by
  obtain ⟨i, la, c, r, m⟩ := env
  unfold connect connect.connectOpen connectCatch
  cases i <;> cases c <;> cases r <;> cases la <;> split <;> simp [precedesB]

theorem connectTrace_listeners_before_complete (env : ConnectEnv)
    (key prompt : String) (st : AppState) :
    precedesB Ev.listenersAttached Ev.sessionOpenComplete
        (connect env key prompt st).2 = true := by
  obtain ⟨i, la, c, r, m⟩ := env
  unfold connect connect.connectOpen connectCatch
  cases i <;> cases c <;> cases r <;> cases la <;> split <;> simp [precedesB]

theorem listeners_attached_before_session_open (env : ConnectEnv)
    (key prompt : String) (st : AppState) :
    precedesB Ev.listenersAttached Ev.sessionOpenStart
        (connect env key prompt st).2 = true ∧
    precedesB Ev.listenersAttached Ev.sessionOpenComplete
        (connect env key prompt st).2 = true :=
  ⟨connectTrace_listeners_before_start env key prompt st,
   connectTrace_listeners_before_complete env key prompt st⟩

/-- C8: after a successful `connect()` the local microphone track is
disabled; `toggleMicrophone()` with a session carrying a local audio
track negates the enabled flag exactly once; it never changes the
connection status; and with no session it only appends the warning
"Please connect first". -/
theorem microphone_default_and_toggle (env : ConnectEnv)
    (key prompt : String) (st stSome stNone stAny : AppState)
    (t t2 : Track) (s : Session)
    (hkey : key ≠ "") (hinit : env.initDevicesOk = true)
    (hconn : env.connectOk = true)
    (hloc : env.localAudioAfterInit = some t)
    (hsome : stSome.rtviClient = some s) (haud : s.localAudio = some t2)
    (hnone : stNone.rtviClient = none) :
    ((connect env key prompt st).1.rtviClient =
        some { connectUrl := buildConnectUrl st.activeTab key prompt
               localAudio := some { t with enabled := false } } ∧
      (connect env key prompt st).1.connectionStatus = ConnStatus.connected) ∧
    (toggleMicrophone stSome).rtviClient =
      some { s with localAudio := some { t2 with enabled := !t2.enabled } } ∧
    (toggleMicrophone stAny).connectionStatus = stAny.connectionStatus ∧
    toggleMicrophone stNone =
      { stNone with logs := stNone.logs ++ [⟨"warning", "Please connect first"⟩] } := by
  obtain ⟨i, la, c, r, m⟩ := env
  simp only at hinit hconn hloc
  subst hinit hconn hloc
  refine ⟨?_, ?_, ?_, ?_⟩
  · simp [connect, connect.connectOpen, onConnectedCb, hkey]
  · cases ht : t2.enabled <;> simp [toggleMicrophone, hsome, haud, ht]
  · unfold toggleMicrophone
    rcases hAny : stAny.rtviClient with _ | s2
    · simp
    · rcases hA : s2.localAudio with _ | t3
      · simp [hA]
      · cases hE : t3.enabled <;> simp [hA, hE]
  · simp [toggleMicrophone, hnone]

/-- Witness instantiating the C8 theorem at the example environment and
states. -/
theorem microphone_default_and_toggle_witness :
    ("abc123" : String) ≠ "" ∧
    envAllOk.initDevicesOk = true ∧
    envAllOk.connectOk = true ∧
    envAllOk.localAudioAfterInit = some exTrack ∧
    connectedState.rtviClient = some exSession ∧
    exSession.localAudio = some { exTrack with enabled := false } ∧
    initialState.rtviClient = none ∧
    (((connect envAllOk "abc123" "" initialState).1.rtviClient =
        some { connectUrl := buildConnectUrl initialState.activeTab "abc123" ""
               localAudio := some { exTrack with enabled := false } } ∧
      (connect envAllOk "abc123" "" initialState).1.connectionStatus = ConnStatus.connected) ∧
    (toggleMicrophone connectedState).rtviClient =
      some { exSession with
              localAudio := some { ({ exTrack with enabled := false } : Track) with
                                    enabled := !({ exTrack with enabled := false } : Track).enabled } } ∧
    (toggleMicrophone connectedState).connectionStatus = connectedState.connectionStatus ∧
    toggleMicrophone initialState =
      { initialState with
          logs := initialState.logs ++ [⟨"warning", "Please connect first"⟩] }) :=
  ⟨by decide, by decide, by decide, by decide, by decide, by decide, by decide,
   microphone_default_and_toggle envAllOk "abc123" "" initialState connectedState
     initialState connectedState exTrack { exTrack with enabled := false } exSession
     (by decide) (by decide) (by decide) (by decide) (by decide) (by decide) (by decide)⟩

/-- C9: a track-started event for a non-local audio track makes that
track the currently bound playback source (replacing any previous
binding) and sets the status text; a track-stopped event never changes
the connection status. -/
theorem remote_track_events (track : Track) (p : Option Participant)
    (st st2 : AppState) (track2 : Track) (p2 : Option Participant)
    (hk : track.kind = "audio") (hnl : participantNonLocal p = true) :
    (onTrackStarted track p st).boundAudioTrack = some track ∧
    (onTrackStarted track p st).statusText = "Bot is speaking..." ∧
    (onTrackStopped track2 p2 st2).connectionStatus = st2.connectionStatus := by
  refine ⟨?_, ?_, ?_⟩
  · simp [onTrackStarted, setupAudioTrack, hk, hnl]
  · simp [onTrackStarted, setupAudioTrack, hk, hnl]
  · unfold onTrackStopped
    split <;> rfl

/-- Witness instantiating the C9 theorem at a bot audio track. -/
theorem remote_track_events_witness :
    botTrack.kind = "audio" ∧
    participantNonLocal (some ⟨false⟩) = true ∧
    ((onTrackStarted botTrack (some ⟨false⟩) connectedState).boundAudioTrack = some botTrack ∧
      (onTrackStarted botTrack (some ⟨false⟩) connectedState).statusText = "Bot is speaking..." ∧
      (onTrackStopped botTrack none connectedState).connectionStatus =
        connectedState.connectionStatus) :=
  ⟨by decide, by decide,
   remote_track_events botTrack (some ⟨false⟩) connectedState connectedState
     botTrack none (by decide) (by decide)⟩

/-- Helper: with a session handle present, the public toggle routes to
`disconnect()`. -/
theorem toggleConnection_routes_to_disconnect (env : ConnectEnv)
    (releaseOk : Bool) (key prompt : String) (st : AppState) (s : Session)
    (h : st.rtviClient = some s) :
    toggleConnection env releaseOk key prompt st = disconnect releaseOk st := by
  simp [toggleConnection, h]

/-- Helper: `disconnect()` never constructs a client. -/
theorem disconnect_no_newClient (releaseOk : Bool) (st : AppState) :
    Ev.newClient ∉ (disconnect releaseOk st).2 := by
  unfold disconnect
  rcases h : st.rtviClient with _ | s <;> cases releaseOk <;> simp

/-- Helper: when the credential is non-empty and the attempt fails after
the client is constructed, the catch path keeps the handle non-null and
leaves the audio context open. -/
theorem connect_fail_keeps_state (env : ConnectEnv) (key prompt : String)
    (st : AppState) (hkey : key ≠ "")
    (hfail : env.initDevicesOk = false ∨ env.connectOk = false) :
    (∃ s, (connect env key prompt st).1.rtviClient = some s) ∧
    (connect env key prompt st).1.audioContextOpen = true := by
  obtain ⟨i, la, c, r, m⟩ := env
  simp only at hfail
  unfold connect connect.connectOpen connectCatch
  rcases hfail with hi | hc
  · subst hi
    cases la <;> cases r <;> simp [hkey, onDisconnectedCb]
  · subst hc
    cases i <;> cases la <;> cases r <;> simp [hkey, onDisconnectedCb]

/-- C10: when a connect attempt throws after the client object was
constructed, the catch path leaves the session handle non-null and the
audio context open, so the next public toggle routes to `disconnect()`
and constructs no new client. -/
theorem connect_failure_keeps_handle (env env2 : ConnectEnv)
    (releaseOk : Bool) (key prompt key2 prompt2 : String) (st : AppState)
    (hkey : key ≠ "")
    (hfail : env.initDevicesOk = false ∨ env.connectOk = false) :
    (∃ s, (connect env key prompt st).1.rtviClient = some s) ∧
    (connect env key prompt st).1.audioContextOpen = true ∧
    toggleConnection env2 releaseOk key2 prompt2 (connect env key prompt st).1 =
      disconnect releaseOk (connect env key prompt st).1 ∧
    Ev.newClient ∉ (toggleConnection env2 releaseOk key2 prompt2 (connect env key prompt st).1).2 := by
  obtain ⟨⟨s, hs⟩, hctx⟩ := connect_fail_keeps_state env key prompt st hkey hfail
  have hroute := toggleConnection_routes_to_disconnect env2 releaseOk key2 prompt2
    (connect env key prompt st).1 s hs
  refine ⟨⟨s, hs⟩, hctx, hroute, ?_⟩
  rw [hroute]
  exact disconnect_no_newClient releaseOk (connect env key prompt st).1

/-- Witness instantiating the C10 theorem at an environment whose
transport open throws. -/
theorem connect_failure_keeps_handle_witness :
    ("abc123" : String) ≠ "" ∧
    (envOpenFails.initDevicesOk = false ∨ envOpenFails.connectOk = false) ∧
    ((∃ s, (connect envOpenFails "abc123" "" initialState).1.rtviClient = some s) ∧
      (connect envOpenFails "abc123" "" initialState).1.audioContextOpen = true ∧
      toggleConnection envAllOk true "k" "" (connect envOpenFails "abc123" "" initialState).1 =
        disconnect true (connect envOpenFails "abc123" "" initialState).1 ∧
      Ev.newClient ∉
        (toggleConnection envAllOk true "k" "" (connect envOpenFails "abc123" "" initialState).1).2) :=
  ⟨by decide, by decide,
   connect_failure_keeps_handle envOpenFails envAllOk true "abc123" "" "k" "" initialState
     (by decide) (by decide)⟩
